import Mathlib

/-!
Shallow embedding of the harvesting core of the google-scholar-mcp server
(scraper `scholar.ts`, utility module `helpers.ts`, the in-memory cache
`cache.ts`, and the SerpAPI fallback plumbing), together with proofs about
the claims of the specification.

JavaScript strings are modelled as Lean `String` / `List Char`; the regular
expressions and string primitives used by the source are re-implemented
character by character below.  HTML pages are modelled at the level cheerio
delivers them to the repository's own logic: a page is the list of result
"cards", each card carrying the text/attribute values the scraper reads via
its fixed selectors.  Network I/O is modelled by explicit oracles
(`Nat → ...` for attempt- or offset-indexed requests); module-level mutable
state (the `useSerpApiFallback` flag) is passed and returned explicitly.
-/

namespace ScholarMcp

/-! ## Character / string primitives mirroring the JavaScript ones -/

/-- Digit value of an ASCII digit character. -/
def digitVal (c : Char) : Nat := c.toNat - 48

/-- Value of a list of ASCII digit characters, most significant first
(the semantics of `parseInt` on an all-digit string). -/
def natOfDigits (ds : List Char) : Nat := ds.foldl (fun a c => 10 * a + digitVal c) 0

/-- A word character in the sense of the JavaScript regex class `\w`
(used for the `\b` boundaries of `extractYear`). -/
def isWordChar (c : Char) : Bool := c.isAlpha || c.isDigit || c == '_'

/-- JavaScript `String.prototype.toLowerCase`, restricted to the ASCII
range actually exercised by the block-indicator phrases. -/
def toLowerStr (s : String) : String := ⟨s.data.map Char.toLower⟩

/-- Match a literal character sequence at the head of the input; on success
return the remaining input.  Building block for the literal parts of the
source's regexes. -/
def matchLiteral : List Char → List Char → Option (List Char)
  | [], cs => some cs
  | _ :: _, [] => none
  | p :: ps, c :: cs => if c == p then matchLiteral ps cs else none

/-- Case-insensitive variant (pattern given in lower case), for the `/i`
flag of `/Cited by (\d+)/i`. -/
def matchLiteralCI : List Char → List Char → Option (List Char)
  | [], cs => some cs
  | _ :: _, [] => none
  | p :: ps, c :: cs => if c.toLower == p then matchLiteralCI ps cs else none

theorem matchLiteral_length :
    ∀ (p l r : List Char), matchLiteral p l = some r → l.length = p.length + r.length := by
  intro p
  induction p with
  | nil => intro l r h; simp [matchLiteral] at h; simp [h]
  | cons x xs ih =>
    intro l r h
    cases l with
    | nil => simp [matchLiteral] at h
    | cons c cs =>
      simp only [matchLiteral] at h
      split at h
      · have := ih cs r h
        simp [this]; omega
      · exact absurd h (by simp)

theorem length_dropWhile_le (p : Char → Bool) (l : List Char) :
    (l.dropWhile p).length ≤ l.length := by
  induction l with
  | nil => simp
  | cons c cs ih =>
    rw [List.dropWhile_cons]
    split
    · exact Nat.le_succ_of_le ih
    · simp

/-- Maximal run of ASCII digits at the head of the input (`\d+` with the
rest of the input returned). -/
def takeDigits : List Char → List Char × List Char
  | [] => ([], [])
  | c :: cs =>
    if c.isDigit then
      let p := takeDigits cs
      (c :: p.1, p.2)
    else ([], c :: cs)

/-- `String.prototype.trim`. -/
def myTrim (l : List Char) : List Char :=
  ((l.dropWhile Char.isWhitespace).reverse.dropWhile Char.isWhitespace).reverse

/-- `replace(/\s+/g, ' ')`: every maximal whitespace run becomes a single
space.  `inWs` records whether the previous character was whitespace (i.e.
whether we are inside a run whose space was already emitted). -/
def collapseWsAux : Bool → List Char → List Char
  | _, [] => []
  | inWs, c :: cs =>
    if c.isWhitespace then
      if inWs then collapseWsAux true cs else ' ' :: collapseWsAux true cs
    else c :: collapseWsAux false cs

def collapseWs (l : List Char) : List Char := collapseWsAux false l

/-- `cleanText` from `helpers.ts`: `text.replace(/\s+/g, ' ').trim()`
(with the `!text → ''` guard subsumed, since the empty string maps to
itself). -/
def cleanText (s : String) : String := ⟨myTrim (collapseWs s.data)⟩

/-- JavaScript `String.prototype.split` with a one-character separator
(the source splits bylines on `','`). -/
def splitOnChar (sep : Char) : List Char → List (List Char)
  | [] => [[]]
  | c :: cs =>
    if c == sep then [] :: splitOnChar sep cs
    else
      match splitOnChar sep cs with
      | [] => [[c]]
      | h :: t => (c :: h) :: t

/-- JavaScript `String.prototype.split` with a three-character separator
(the source splits compound bylines on the literal `' - '`). -/
def splitOnSep3 (a b c : Char) : List Char → List (List Char)
  | x :: y :: z :: rest =>
    if x == a && y == b && z == c then [] :: splitOnSep3 a b c rest
    else
      match splitOnSep3 a b c (y :: z :: rest) with
      | [] => [[x]]
      | h :: t => (x :: h) :: t
  | l => [l]

/-! ## Regex fragments used by `helpers.ts` -/

/-- `\b` holds after position boundaries tracked by the scanner; this tests
the boundary after a candidate year: end of input or a non-word char. -/
def boundaryAfter : List Char → Bool
  | [] => true
  | e :: _ => !(isWordChar e)

/-- Try `(19|20)\d{2}\b` at the head of the input and return the year. -/
def yearAt : List Char → Option Nat
  | a :: b :: c :: d :: rest =>
    if a.isDigit && b.isDigit && c.isDigit && d.isDigit &&
        ((a == '1' && b == '9') || (a == '2' && b == '0')) && boundaryAfter rest then
      some (1000 * digitVal a + 100 * digitVal b + 10 * digitVal c + digitVal d)
    else none
  | _ => none

/-- Leftmost scan for `\b(19|20)\d{2}\b`; `prevIsWord` records whether the
previous character was a word character (so `\b` holds iff it was not). -/
def findYearAux : Bool → List Char → Option Nat
  | _, [] => none
  | prevW, c :: cs =>
    match (if prevW then none else yearAt (c :: cs)) with
    | some y => some y
    | none => findYearAux (isWordChar c) cs

/-- `extractYear` from `helpers.ts`: `text.match(/\b(19|20)\d{2}\b/)`,
parsed to a number; `none` when there is no match. -/
def extractYear (text : String) : Option Nat := findYearAux false text.data

/-- Leftmost case-insensitive scan for `Cited by (\d+)`; returns the
captured digit group. -/
def findCitedBy : List Char → Option Nat
  | [] => none
  | c :: cs =>
    match matchLiteralCI "cited by ".data (c :: cs) with
    | some rest =>
      match takeDigits rest with
      | ([], _) => findCitedBy cs
      | (d :: ds, _) => some (natOfDigits (d :: ds))
    | none => findCitedBy cs

/-- `extractCitationCount` from `helpers.ts`: `text.match(/Cited by (\d+)/i)`. -/
def extractCitationCount (text : String) : Option Nat := findCitedBy text.data

/-- Try `cluster=(\d+)` at the head of the input. -/
def tryCluster (cs : List Char) : Option String :=
  match matchLiteral "cluster=".data cs with
  | some rest =>
    match takeDigits rest with
    | (d :: ds, _) => some ⟨d :: ds⟩
    | ([], _) => none
  | none => none

/-- Try `cites=(\d+)` at the head of the input. -/
def tryCites (cs : List Char) : Option String :=
  match matchLiteral "cites=".data cs with
  | some rest =>
    match takeDigits rest with
    | (d :: ds, _) => some ⟨d :: ds⟩
    | ([], _) => none
  | none => none

/-- Leftmost scan for `cluster=(\d+)|cites=(\d+)` (alternation tried in
order at each position, as the JavaScript engine does). -/
def findClusterAux : List Char → Option String
  | [] => none
  | c :: cs =>
    match tryCluster (c :: cs) with
    | some s => some s
    | none =>
      match tryCites (c :: cs) with
      | some s => some s
      | none => findClusterAux cs

/-- `extractClusterId` from `helpers.ts`: `url.match(/cluster=(\d+)|cites=(\d+)/)`,
returning whichever group matched. -/
def extractClusterId (url : String) : Option String := findClusterAux url.data

/-- Remove the leftmost occurrence of four consecutive digits:
`replace(/\d{4}/, '')` (non-global). -/
def removeFourDigits : List Char → List Char
  | [] => []
  | a :: rest =>
    match rest with
    | b :: c :: d :: rest2 =>
      if a.isDigit && b.isDigit && c.isDigit && d.isDigit then rest2
      else a :: removeFourDigits rest
    | _ => a :: removeFourDigits rest

/-- `replace(/^,|,$/g, '')`: drop one leading and one trailing comma. -/
def dropLeadingComma : List Char → List Char
  | ',' :: rest => rest
  | l => l

def stripEdgeCommas (s : String) : String :=
  ⟨(dropLeadingComma (dropLeadingComma s.data).reverse).reverse⟩

/-- `parseAuthors` from `helpers.ts`: split the byline on commas, clean
each part, and drop empty parts (`filter(Boolean)`). -/
def parseAuthors (authorStr : String) : List String :=
  if authorStr = "" then []
  else ((splitOnChar ',' authorStr.data).map (fun l => cleanText ⟨l⟩)).filter (fun a => a ≠ "")

/-- First maximal digit run anywhere in the input (`match(/\d+/)`). -/
def firstDigitRun : List Char → Option (List Char)
  | [] => none
  | c :: cs => if c.isDigit then some (takeDigits (c :: cs)).1 else firstDigitRun cs

/-- JavaScript `parseInt(s, 10)` restricted to the shapes arising here:
skip leading whitespace, read a maximal digit run; `none` models `NaN`. -/
def jsParseInt (l : List Char) : Option Nat :=
  match takeDigits (l.dropWhile Char.isWhitespace) with
  | ([], _) => none
  | (d :: ds, _) => some (natOfDigits (d :: ds))


/-! ## Error model (`types/index.ts`) -/

/-- `ScholarErrorCode` from `types/index.ts`. -/
inductive ScholarErrorCode where
  | RATE_LIMITED
  | CAPTCHA_REQUIRED
  | NOT_FOUND
  | PARSE_ERROR
  | NETWORK_ERROR
  | INVALID_INPUT
  | BLOCKED
deriving DecidableEq, Repr

/-! ## Soft/hard block detection (`helpers.ts`) -/

/-- Substring containment, the semantics of `String.prototype.includes`. -/
def includesSub (s pat : String) : Bool := decide (pat.data <:+: s.data)

/-- The soft-block indicator phrases of `isRateLimited`. -/
def rateLimitIndicators : List String :=
  ["unusual traffic", "automated requests", "please show you", "robot",
   "captcha", "recaptcha", "sorry, we can\x27t", "systems have detected"]

/-- The hard-block indicator phrases of `isBlocked`. -/
def blockIndicators : List String :=
  ["access denied", "forbidden", "403", "blocked"]

/-- `isRateLimited` from `helpers.ts`: some soft-block indicator occurs in
the lower-cased body. -/
def isRateLimited (html : String) : Bool :=
  rateLimitIndicators.any fun indicator => includesSub (toLowerStr html) indicator

/-- `isBlocked` from `helpers.ts`: some hard-block indicator occurs in the
lower-cased body. -/
def isBlocked (html : String) : Bool :=
  blockIndicators.any fun indicator => includesSub (toLowerStr html) indicator

/-! ## Pacer constants and backoff (`helpers.ts`) -/

/-- `DEFAULT_RATE_LIMIT_CONFIG.minDelay` (ms). -/
def minDelay : Nat := 1000

/-- `DEFAULT_RATE_LIMIT_CONFIG.maxDelay` (ms). -/
def maxDelay : Nat := 5000

/-- `DEFAULT_RATE_LIMIT_CONFIG.backoffMultiplier`. -/
def backoffMultiplier : Nat := 2

/-- `getBackoffDelay` from `helpers.ts`:
`min(minDelay * multiplier ^ attempt, maxDelay * 10)`. -/
def getBackoffDelay (attempt : Nat) : Nat :=
  min (minDelay * backoffMultiplier ^ attempt) (maxDelay * 10)

/-! ## Fetch client (`fetchPage` in `scholar.ts`) -/

/-- `MAX_RETRIES` from `scholar.ts`. -/
def MAX_RETRIES : Nat := 3

/-- Body inspection of a successful transport response: soft-block wins
over hard-block, which wins over success (the order of the two checks in
`fetchPage`). -/
def checkHtml (html : String) : Except ScholarErrorCode String :=
  if isRateLimited html then .error .RATE_LIMITED
  else if isBlocked html then .error .BLOCKED
  else .ok html

/-- Recursion core of `fetchPage`; `remaining` is the value of
`MAX_RETRIES - retryCount`, carried structurally so that the recursion
matches the source's guard `retryCount < MAX_RETRIES` (which holds exactly
when `remaining` is a successor). -/
def fetchPageGo (resp : Nat → Option String) :
    Nat → Nat → Except ScholarErrorCode String × List Nat
  | 0, retryCount =>
    match resp retryCount with
    | some html => (checkHtml html, [])
    | none => (.error .NETWORK_ERROR, [])
  | rem + 1, retryCount =>
    match resp retryCount with
    | some html => (checkHtml html, [])
    | none =>
      let r := fetchPageGo resp rem (retryCount + 1)
      (r.1, getBackoffDelay retryCount :: r.2)

/-- `fetchPage` from `scholar.ts`.  The transport is an oracle mapping the
attempt index (the `retryCount` argument of the recursive calls) to
`some body` (transport success — the body is then classified) or `none`
(transport-level failure — retried while `retryCount < MAX_RETRIES`, then
`NETWORK_ERROR`).  The second component is the list of backoff delays slept
between attempts, in order. -/
def fetchPage (resp : Nat → Option String) (retryCount : Nat) :
    Except ScholarErrorCode String × List Nat :=
  fetchPageGo resp (MAX_RETRIES - retryCount) retryCount

deriving instance DecidableEq for Except

/-- Lower-casing a string preserves an occurrence of an already-lower-case
pattern. -/
theorem infix_map_toLower {pat : List Char} {s : String}
    (hpat : pat.map Char.toLower = pat) (h : pat <:+: s.data) :
    pat <:+: (toLowerStr s).data := by
  obtain ⟨u, v, huv⟩ := h
  refine ⟨u.map Char.toLower, v.map Char.toLower, ?_⟩
  show u.map Char.toLower ++ pat ++ v.map Char.toLower = (toLowerStr s).data
  have hd : (toLowerStr s).data = s.data.map Char.toLower := rfl
  rw [hd, ← huv]
  simp [hpat]

theorem isRateLimited_of_unusual_traffic {html : String}
    (h : "unusual traffic".data <:+: html.data) : isRateLimited html = true := by
  have hmem : "unusual traffic" ∈ rateLimitIndicators := by simp [rateLimitIndicators]
  have hinc : includesSub (toLowerStr html) "unusual traffic" = true := by
    unfold includesSub
    exact decide_eq_true (infix_map_toLower (by decide) h)
  unfold isRateLimited
  exact List.any_eq_true.mpr ⟨"unusual traffic", hmem, hinc⟩

/-- C7: for every HTTP response body containing the phrase "unusual traffic",
the fetch operation fails with the `RATE_LIMITED` error kind — not `BLOCKED`
and not a generic error — even when hard-block indicator phrases are also
present in the same body, because `fetchPage` runs the soft-block check
before the hard-block check. -/
theorem C7_unusual_traffic_is_rate_limited (resp : Nat → Option String) (html : String)
    (h0 : resp 0 = some html) (h : "unusual traffic".data <:+: html.data) :
    fetchPage resp 0 = (.error ScholarErrorCode.RATE_LIMITED, []) := by
  simp [fetchPage, fetchPageGo, MAX_RETRIES, h0, checkHtml,
    isRateLimited_of_unusual_traffic h]

/-- Witness for C7 at a concrete body that also contains every hard-block
indicator phrase. -/
theorem C7_unusual_traffic_is_rate_limited_witness :
    fetchPage (fun _ => some "We detected unusual traffic. Access denied: 403 forbidden, blocked.") 0
      = (.error ScholarErrorCode.RATE_LIMITED, []) :=
  C7_unusual_traffic_is_rate_limited _ _ rfl (by decide)

/-- C8: transport-level failures are retried up to the fixed ceiling of
`MAX_RETRIES = 3`, sleeping `getBackoffDelay attempt` between attempts,
before failing with `NETWORK_ERROR`; a body classified `RATE_LIMITED` or
`BLOCKED` propagates immediately with no retry and no backoff sleep; and
`getBackoffDelay` is `minDelay * multiplier ^ attempt` capped at
`10 * maxDelay`. -/
theorem C8_retry_policy :
    (∀ resp : Nat → Option String,
      resp 0 = none → resp 1 = none → resp 2 = none → resp 3 = none →
      fetchPage resp 0 =
        (.error ScholarErrorCode.NETWORK_ERROR,
         [getBackoffDelay 0, getBackoffDelay 1, getBackoffDelay 2])) ∧
    (∀ (resp : Nat → Option String) (html : String), resp 0 = some html →
      isRateLimited html = true →
      fetchPage resp 0 = (.error ScholarErrorCode.RATE_LIMITED, [])) ∧
    (∀ (resp : Nat → Option String) (html : String), resp 0 = some html →
      isRateLimited html = false → isBlocked html = true →
      fetchPage resp 0 = (.error ScholarErrorCode.BLOCKED, [])) ∧
    (∀ attempt : Nat,
      getBackoffDelay attempt = min (minDelay * backoffMultiplier ^ attempt) (10 * maxDelay)) ∧
    [getBackoffDelay 0, getBackoffDelay 1, getBackoffDelay 2] = [1000, 2000, 4000] := by
  refine ⟨?_, ?_, ?_, ?_, by decide⟩
  · intro resp h0 h1 h2 h3
    simp [fetchPage, fetchPageGo, MAX_RETRIES, h0, h1, h2, h3]
  · intro resp html h0 hrl
    simp [fetchPage, fetchPageGo, MAX_RETRIES, h0, checkHtml, hrl]
  · intro resp html h0 hrl hbl
    simp [fetchPage, fetchPageGo, MAX_RETRIES, h0, checkHtml, hrl, hbl]
  · intro attempt
    simp [getBackoffDelay, Nat.mul_comm]

/-- Witness for C8 at concrete transports. -/
theorem C8_retry_policy_witness :
    fetchPage (fun _ => none) 0
      = (.error ScholarErrorCode.NETWORK_ERROR,
         [getBackoffDelay 0, getBackoffDelay 1, getBackoffDelay 2]) ∧
    fetchPage (fun _ => some "please solve this recaptcha challenge") 0
      = (.error ScholarErrorCode.RATE_LIMITED, []) ∧
    fetchPage (fun _ => some "access denied") 0
      = (.error ScholarErrorCode.BLOCKED, []) ∧
    getBackoffDelay 7 = min (minDelay * backoffMultiplier ^ 7) (10 * maxDelay) :=
  ⟨C8_retry_policy.1 _ rfl rfl rfl rfl,
   C8_retry_policy.2.1 _ _ rfl (by decide),
   C8_retry_policy.2.2.1 _ _ rfl (by decide) (by decide),
   C8_retry_policy.2.2.2.1 7⟩

/-! ## Result cache (`cache.ts`) -/

/-- `CacheEntry` from `cache.ts`; timestamps and ttl in milliseconds. -/
structure CacheEntry (α : Type) where
  data : α
  timestamp : Nat
  ttl : Nat
deriving DecidableEq, Repr

/-- The backing `Map<string, CacheEntry>` modelled as an association list
in insertion order (`Map.set` replaces in place, `Map.delete` removes). -/
abbrev CacheMap (α : Type) : Type := List (String × CacheEntry α)

/-- `Map.prototype.get`. -/
def mapFind {α : Type} (m : CacheMap α) (k : String) : Option (CacheEntry α) :=
  (m.find? (fun p => p.1 == k)).map (fun p => p.2)

/-- `Map.prototype.set`: replace in place if the key is present, else
append. -/
def mapSet {α : Type} (m : CacheMap α) (k : String) (e : CacheEntry α) : CacheMap α :=
  if (m.find? (fun p => p.1 == k)).isSome then
    m.map (fun p => if p.1 == k then (k, e) else p)
  else m ++ [(k, e)]

/-- `Map.prototype.delete` (ignoring the returned boolean). -/
def mapDelete {α : Type} (m : CacheMap α) (k : String) : CacheMap α :=
  m.filter (fun p => p.1 != k)

/-- `ScholarCache.get` from `cache.ts`: `none` when caching is disabled or
the key is absent; a found entry older than its ttl (`now - timestamp >
ttl`) is deleted and `none` returned; otherwise the stored data.  Returns
the value together with the updated map. -/
def cacheGet {α : Type} (cacheEnabled : Bool) (m : CacheMap α) (now : Nat) (key : String) :
    Option α × CacheMap α :=
  if !cacheEnabled then (none, m)
  else
    match mapFind m key with
    | none => (none, m)
    | some entry =>
      if now - entry.timestamp > entry.ttl then (none, mapDelete m key)
      else (some entry.data, m)

/-- `ScholarCache.set` from `cache.ts`: no-op when caching is disabled,
otherwise stores the data stamped `now` with `ttl ?? config.cacheTtlMs`. -/
def cacheSet {α : Type} (cacheEnabled : Bool) (cacheTtlMs : Nat) (m : CacheMap α) (now : Nat)
    (key : String) (data : α) (ttl : Option Nat) : CacheMap α :=
  if !cacheEnabled then m
  else mapSet m key ⟨data, now, ttl.getD cacheTtlMs⟩

theorem find?_replace_self {α : Type} (k : String) (e : CacheEntry α) :
    ∀ m : CacheMap α, (List.find? (fun p => p.1 == k) m).isSome →
      List.find? (fun p => p.1 == k) (m.map (fun p => if p.1 == k then (k, e) else p))
        = some (k, e) := by
  intro m
  induction m with
  | nil => simp
  | cons p rest ih =>
    intro h
    cases hpk : (p.1 == k) with
    | true =>
      rw [List.map_cons, if_pos hpk, List.find?_cons]
      simp
    | false =>
      simp only [List.find?_cons, hpk] at h
      rw [List.map_cons, if_neg (by simp [hpk]), List.find?_cons, hpk]
      exact ih h

theorem find?_append_self {α : Type} (k : String) (e : CacheEntry α) :
    ∀ m : CacheMap α, (List.find? (fun p => p.1 == k) m).isSome = false →
      List.find? (fun p => p.1 == k) (m ++ [(k, e)]) = some (k, e) := by
  intro m
  induction m with
  | nil => simp
  | cons p rest ih =>
    intro h
    cases hpk : (p.1 == k) with
    | true => simp [List.find?_cons, hpk] at h
    | false =>
      simp only [List.find?_cons, hpk] at h
      rw [List.cons_append, List.find?_cons, hpk]
      exact ih h

theorem mapFind_mapSet_self {α : Type} (m : CacheMap α) (k : String) (e : CacheEntry α) :
    mapFind (mapSet m k e) k = some e := by
  unfold mapFind mapSet
  cases h : (List.find? (fun p => p.1 == k) m).isSome with
  | true => rw [if_pos rfl, find?_replace_self k e m h]; rfl
  | false => rw [if_neg (by simp), find?_append_self k e m h]; rfl

theorem mapFind_mapDelete_self {α : Type} (m : CacheMap α) (k : String) :
    mapFind (mapDelete m k) k = none := by
  unfold mapFind mapDelete
  induction m with
  | nil => simp
  | cons p rest ih =>
    by_cases hk : p.1 = k
    · simpa [List.filter_cons, hk] using ih
    · have hk' : (p.1 == k) = false := beq_eq_false_iff_ne.mpr hk
      simp only [List.filter_cons, bne, hk', Bool.not_false, if_pos, List.find?_cons]
      simpa [hk'] using ih

/-- C9: when caching is enabled, `set k v ttl` followed immediately by
`get k` returns `v`; a lookup finding an entry whose age strictly exceeds
its ttl returns `none` and evicts the entry; and any value `get` does
return comes from an entry whose age is within its ttl — an expired entry
is never returned. -/
theorem C9_cache_roundtrip_and_expiry :
    (∀ (α : Type) (ttlMs : Nat) (m : CacheMap α) (now : Nat) (k : String) (v : α)
        (ttl : Option Nat),
      (cacheGet true (cacheSet true ttlMs m now k v ttl) now k).1 = some v) ∧
    (∀ (α : Type) (m : CacheMap α) (now : Nat) (k : String) (e : CacheEntry α),
      mapFind m k = some e → e.ttl < now - e.timestamp →
      (cacheGet true m now k).1 = none ∧ mapFind (cacheGet true m now k).2 k = none) ∧
    (∀ (α : Type) (m : CacheMap α) (now : Nat) (k : String) (v : α),
      (cacheGet true m now k).1 = some v →
      ∃ e : CacheEntry α, mapFind m k = some e ∧ e.data = v ∧ now - e.timestamp ≤ e.ttl) := by
  refine ⟨?_, ?_, ?_⟩
  · intro α ttlMs m now k v ttl
    unfold cacheGet cacheSet
    simp [mapFind_mapSet_self]
  · intro α m now k e hfind hexp
    have hcond : now - e.timestamp > e.ttl := by omega
    unfold cacheGet
    rw [hfind]
    simp [hcond, mapFind_mapDelete_self]
  · intro α m now k v hget
    unfold cacheGet at hget
    rw [if_neg (show ¬ ((!true) = true) by simp)] at hget
    cases hfind : mapFind m k with
    | none => rw [hfind] at hget; simp at hget
    | some e =>
      rw [hfind] at hget
      by_cases hexp : now - e.timestamp > e.ttl
      · simp [hexp] at hget
      · simp [hexp] at hget
        exact ⟨e, rfl, hget, by omega⟩

/-- Witness for C9: a fresh round-trip, an expired entry, and a fresh
lookup, all at concrete values. -/
theorem C9_cache_roundtrip_and_expiry_witness :
    (cacheGet true (cacheSet true 3600000 ([] : CacheMap Nat) 50 "search:q" 42 none) 50 "search:q").1
      = some 42 ∧
    ((cacheGet true [("k", (⟨5, 0, 10⟩ : CacheEntry Nat))] 100 "k").1 = none ∧
      mapFind (cacheGet true [("k", (⟨5, 0, 10⟩ : CacheEntry Nat))] 100 "k").2 "k" = none) ∧
    (∃ e : CacheEntry Nat, mapFind [("k", (⟨7, 0, 10⟩ : CacheEntry Nat))] "k" = some e ∧
      e.data = 7 ∧ 3 - e.timestamp ≤ e.ttl) :=
  ⟨C9_cache_roundtrip_and_expiry.1 Nat 3600000 [] 50 "search:q" 42 none,
   C9_cache_roundtrip_and_expiry.2.1 Nat [("k", ⟨5, 0, 10⟩)] 100 "k" ⟨5, 0, 10⟩ (by decide)
     (by decide),
   C9_cache_roundtrip_and_expiry.2.2 Nat [("k", ⟨7, 0, 10⟩)] 3 "k" 7 (by decide)⟩

/-! ## Canonical record model (`types/index.ts`) -/

/-- The `source` provenance tag of `Publication`. -/
inductive PubSource where
  | PUBLICATION_SEARCH
  | AUTHOR_PROFILE
  | CITATION
  | RELATED
  | VERSION
  | ADVANCED_SEARCH
  | SERPAPI
deriving DecidableEq, Repr

/-- `Publication` from `types/index.ts`; optional fields are `Option`. -/
structure Publication where
  title : String
  authors : List String
  year : Option Nat := none
  venue : Option String := none
  abstract : Option String := none
  citationCount : Option Nat := none
  url : Option String := none
  pdfUrl : Option String := none
  clusterId : Option String := none
  citedByUrl : Option String := none
  relatedUrl : Option String := none
  versionsUrl : Option String := none
  versionsCount : Option Nat := none
  eprintUrl : Option String := none
  source : Option PubSource := none
deriving DecidableEq, Repr

/-! ## Extractor (`parsePublicationResults` in `scholar.ts`) -/

/-- One result card (`.gs_r.gs_or.gs_scl` element), carrying exactly the
text and attribute values the scraper reads through its selectors.  An
absent element yields `""` for a `.text()` read and `none` for an
`.attr('href')` read (cheerio returns `''`/`undefined` respectively). -/
structure Card where
  linkTitle : String
  rtTitle : String
  linkHref : Option String := none
  byline : String := ""
  snippet : String := ""
  citedByText : String := ""
  citedByHref : Option String := none
  relatedHref : Option String := none
  versionsText : String := ""
  versionsHref : Option String := none
  pdfHref : Option String := none
  eprintHref : Option String := none
deriving DecidableEq, Repr

def SCHOLAR_BASE_URL : String := "https://scholar.google.com"

/-- JavaScript truthiness on an optional string: `undefined` and `''` are
falsy (`x || undefined` and `x ? ... : undefined` both produce `undefined`
for them). -/
def strOrNone : Option String → Option String
  | some t => if t = "" then none else some t
  | none => none

/-- The venue computation of `parsePublicationResults`:
`venueYear.replace(/\d{4}/, '').trim().replace(/^,|,$/g, '').trim()`. -/
def searchVenue (venueYear : String) : String :=
  ⟨myTrim (stripEdgeCommas ⟨myTrim (removeFourDigits venueYear.data)⟩).data⟩

/-- `versionsCount` computation: text present ⇒ first digit run (or `0`). -/
def versionsCountOf (versionsText : String) : Option Nat :=
  if versionsText = "" then none
  else some (match firstDigitRun versionsText.data with
             | some ds => natOfDigits ds
             | none => 0)

/-- `x || undefined` on a plain string: absent when empty. -/
def optStr (s : String) : Option String := if s = "" then none else some s

/-- The title computation:
`cleanText(titleEl.text()) || cleanText($el.find('.gs_rt').text())`. -/
def cardTitle (card : Card) : String :=
  if cleanText card.linkTitle ≠ "" then cleanText card.linkTitle else cleanText card.rtTitle

/-- `metaText.split(' - ')` on the cleaned byline. -/
def cardMetaParts (card : Card) : List String :=
  (splitOnSep3 ' ' '-' ' ' (cleanText card.byline).data).map (fun l => (⟨l⟩ : String))

/-- `citedByLink ? extractClusterId(citedByLink) : undefined`. -/
def hrefClusterId (href : Option String) : Option String :=
  match strOrNone href with
  | some l => extractClusterId l
  | none => none

/-- `link ? SCHOLAR_BASE_URL + link : undefined`. -/
def scholarUrl (href : Option String) : Option String :=
  (strOrNone href).map (fun l => SCHOLAR_BASE_URL ++ l)

/-- Per-card body of `parsePublicationResults` (lines 495-572 of
`scholar.ts`): `none` exactly when the card has no title (the
`if (!title) return` skip). -/
def parseCard (card : Card) : Option Publication :=
  if cardTitle card = "" then none
  else some
    { title := cardTitle card
      authors := parseAuthors ((cardMetaParts card).getD 0 "")
      year := extractYear ((cardMetaParts card).getD 1 "")
      venue := optStr (searchVenue ((cardMetaParts card).getD 1 ""))
      abstract := optStr (cleanText card.snippet)
      citationCount := extractCitationCount (cleanText card.citedByText)
      url := strOrNone card.linkHref
      pdfUrl := strOrNone card.pdfHref
      clusterId := hrefClusterId card.citedByHref
      citedByUrl := scholarUrl card.citedByHref
      relatedUrl := scholarUrl card.relatedHref
      versionsUrl := scholarUrl card.versionsHref
      versionsCount := versionsCountOf (cleanText card.versionsText)
      eprintUrl := strOrNone card.eprintHref
      source := some .PUBLICATION_SEARCH }

/-- `parsePublicationResults` from `scholar.ts`: every card is processed;
cards without a title are skipped (and a thrown per-card error would be
caught and skipped likewise); surviving cards are pushed in order. -/
def parsePublicationResults (cards : List Card) : List Publication :=
  cards.filterMap parseCard

/-- A well-formed card as produced by a normal result page. -/
def sampleCard (t : String) : Card :=
  { linkTitle := t
    rtTitle := ""
    linkHref := some "https://example.org/paper"
    byline := "A Smith, B Jones - Journal of Tests, 2020 - example.org"
    snippet := "A snippet."
    citedByText := "Cited by 7"
    citedByHref := some "/scholar?cites=11111" }

/-- A malformed card: both title reads are (effectively) empty. -/
def malformedCard : Card := { linkTitle := " ", rtTitle := "" }

/-- A nine-card page whose fifth card is malformed. -/
def ninePage : List Card :=
  [sampleCard "P1", sampleCard "P2", sampleCard "P3", sampleCard "P4", malformedCard,
   sampleCard "P5", sampleCard "P6", sampleCard "P7", sampleCard "P8"]

/-- C6: every `Publication` produced by the extractor has a non-empty
title, and a card missing a title is excluded without aborting extraction
of the remaining cards — a 9-card page with 1 malformed card yields exactly
8 records. -/
theorem C6_extractor_titles_nonempty :
    (∀ (cards : List Card), ∀ pub ∈ parsePublicationResults cards, pub.title ≠ "") ∧
    (parsePublicationResults ninePage).length = 8 ∧
    (∀ pub ∈ parsePublicationResults ninePage, pub.title ≠ "") := by
  have hall : ∀ (cards : List Card), ∀ pub ∈ parsePublicationResults cards, pub.title ≠ "" := by
    intro cards pub hmem
    obtain ⟨card, _, hp⟩ := List.mem_filterMap.mp hmem
    unfold parseCard at hp
    split at hp
    · exact absurd hp (by simp)
    · rename_i htitle
      injection hp with hp
      rw [← hp]
      exact htitle
  exact ⟨hall, by decide, hall ninePage⟩

/-- Witness for C6 at the concrete nine-card page. -/
theorem C6_extractor_titles_nonempty_witness :
    ((parsePublicationResults ninePage).getD 0 { title := "", authors := [] }).title ≠ "" :=
  C6_extractor_titles_nonempty.1 ninePage _ (by decide)

/-! ## Paginator (the `while` loops of `searchPublications`, `getCitations`
and `advancedSearch` in `scholar.ts`) -/

/-- Result of one page fetch as seen by the pagination loops: `fetchPage`
plus `cheerio.load` plus card selection, i.e. either a `ScholarError` code
or the page's list of result cards, indexed by the page offset. -/
abbrev FetchResult := Except ScholarErrorCode (List Card)

/-- `resultsPerPage` (the fixed page size). -/
def resultsPerPage : Nat := 10

/-- `String.prototype.trim` on a `String`. -/
def jsTrim (s : String) : String := ⟨myTrim s.data⟩

/-- `pub.source = ...` override applied by `forEach` after parsing. -/
def setSource (s : PubSource) (p : Publication) : Publication := { p with source := some s }

/-- Recursion core of the shared pagination loop.  `fuel` is an upper
bound on the number of remaining iterations: every iteration that recurses
appends a non-empty page, so `numResults - publications.length` bounds the
iteration count and the `0` case is only ever reached with
`publications.length ≥ numResults`, where the loop exits anyway.
`transform` is the per-operation `forEach` source override (the identity
for `searchPublications`). -/
def collectLoopGo (src : Nat → FetchResult) (transform : Publication → Publication)
    (numResults : Nat) :
    Nat → List Publication → Nat → Except ScholarErrorCode (List Publication × Nat)
  | 0, publications, currentStart => .ok (publications, currentStart)
  | fuel + 1, publications, currentStart =>
    if publications.length < numResults then
      match src currentStart with
      | .error e => .error e
      | .ok cards =>
        match (parsePublicationResults cards).map transform with
        | [] => .ok (publications, currentStart)
        | r :: rs =>
          collectLoopGo src transform numResults fuel (publications ++ r :: rs)
            (currentStart + resultsPerPage)
    else .ok (publications, currentStart)

/-- The pagination loop: `while (publications.length < numResults)` fetch
the page at `currentStart`, stop on an empty page, else append the records
and advance `currentStart` by `resultsPerPage`; a thrown `ScholarError`
aborts the loop.  Returns the accumulated records with the final offset. -/
def collectLoop (src : Nat → FetchResult) (transform : Publication → Publication)
    (numResults : Nat) (publications : List Publication) (currentStart : Nat) :
    Except ScholarErrorCode (List Publication × Nat) :=
  collectLoopGo src transform numResults (numResults - publications.length)
    publications currentStart

/-- Instrumentation of the same loop recording the page offsets actually
requested from the network, for reasoning about (absent) caching. -/
def collectOffsetsGo (src : Nat → FetchResult) (transform : Publication → Publication)
    (numResults : Nat) : Nat → List Publication → Nat → List Nat
  | 0, _, _ => []
  | fuel + 1, publications, currentStart =>
    if publications.length < numResults then
      match src currentStart with
      | .error _ => [currentStart]
      | .ok cards =>
        match (parsePublicationResults cards).map transform with
        | [] => [currentStart]
        | r :: rs =>
          currentStart :: collectOffsetsGo src transform numResults fuel
            (publications ++ r :: rs) (currentStart + resultsPerPage)
    else []

def collectOffsets (src : Nat → FetchResult) (transform : Publication → Publication)
    (numResults : Nat) (publications : List Publication) (currentStart : Nat) : List Nat :=
  collectOffsetsGo src transform numResults (numResults - publications.length)
    publications currentStart

/-! ## Provider selection and the publication-search operation -/

/-- The module-level `let useSerpApiFallback = false` of `scholar.ts`. -/
def initialFallbackFlag : Bool := false

/-- `PublicationSearchOptions` (the fields the embedded operations read). -/
structure PublicationSearchOptions where
  query : String
  numResults : Option Nat := none
  startIndex : Option Nat := none

/-- `PublicationSearchResult` (the fields the embedded operations build;
the echoed `filters` record is output shaping and is omitted). -/
structure PublicationSearchResult where
  query : String
  publications : List Publication
  hasMore : Bool
  nextStartIndex : Option Nat := none
deriving DecidableEq, Repr

/-- The configuration consulted by `isSerpApiAvailable`, together with the
outcome the SerpAPI adapter would deliver for the in-flight operation
(`serpapi.searchPublicationsSerpApi(options)`), abstracted as an oracle. -/
structure SerpApiEnv where
  serpApiKey : Option String
  useSerpApiFallbackCfg : Bool
  searchResult : Except ScholarErrorCode PublicationSearchResult

/-- JavaScript truthiness of `config.serpApiKey` (`undefined` and `''` are
falsy). -/
def truthyStr : Option String → Bool
  | some s => s ≠ ""
  | none => false

/-- `isSerpApiAvailable` from `serpapi.ts`:
`!!config.serpApiKey && config.useSerpApiFallback`. -/
def isSerpApiAvailable (env : SerpApiEnv) : Bool :=
  truthyStr env.serpApiKey && env.useSerpApiFallbackCfg

/-- `searchPublications` from `scholar.ts`: serve from SerpAPI when the
sticky flag is already set and SerpAPI is available; validate the query;
run the pagination loop; on a `BLOCKED`/`RATE_LIMITED` loop failure with
SerpAPI available, set the sticky flag and return the SerpAPI outcome,
otherwise propagate the error.  Returns the operation outcome together
with the new value of the module-level `useSerpApiFallback` flag. -/
def searchPublications (env : SerpApiEnv) (src : Nat → FetchResult)
    (options : PublicationSearchOptions) (useSerpApiFallback : Bool) :
    Except ScholarErrorCode PublicationSearchResult × Bool :=
  if useSerpApiFallback && isSerpApiAvailable env then
    (env.searchResult, useSerpApiFallback)
  else if jsTrim options.query = "" then (.error .INVALID_INPUT, useSerpApiFallback)
  else
    match collectLoop src id (options.numResults.getD 10) [] (options.startIndex.getD 0) with
    | .ok (publications, currentStart) =>
      (.ok { query := options.query
             publications := publications.take (options.numResults.getD 10)
             hasMore := decide (options.numResults.getD 10 ≤ publications.length)
             nextStartIndex := some currentStart },
       useSerpApiFallback)
    | .error e =>
      if (e == .BLOCKED || e == .RATE_LIMITED) && isSerpApiAvailable env then
        (env.searchResult, true)
      else (.error e, useSerpApiFallback)

/-! ## Citation search, advanced search, related articles, all versions -/

/-- `CitationSearchOptions`. -/
structure CitationSearchOptions where
  clusterId : String
  numResults : Option Nat := none
  startIndex : Option Nat := none

/-- `CitationSearchResult` (`originalPublication.title` is always `''` in
the source and is omitted; `totalCitations` is `none` when the source's
arithmetic would produce `NaN`). -/
structure CitationSearchResult where
  originalClusterId : String
  totalCitations : Option Nat
  citations : List Publication
  hasMore : Bool
  nextStartIndex : Nat
deriving DecidableEq, Repr

/-- Maximal run of `[\d,]` characters at the head of the input. -/
def takeDigitsCommas : List Char → List Char × List Char
  | [] => ([], [])
  | c :: cs =>
    if c.isDigit || c == ',' then
      let p := takeDigitsCommas cs
      (c :: p.1, p.2)
    else ([], c :: cs)

/-- Leftmost scan for `About ([\d,]+) results`, returning the captured
group. -/
def findAboutResults : List Char → Option (List Char)
  | [] => none
  | c :: cs =>
    match matchLiteral "About ".data (c :: cs) with
    | some rest =>
      match takeDigitsCommas rest with
      | ([], _) => findAboutResults cs
      | (d :: ds, rest2) =>
        if (matchLiteral " results".data rest2).isSome then some (d :: ds)
        else findAboutResults cs
    | none => findAboutResults cs

/-- `getCitations` from `scholar.ts`: validate the cluster id, run the
pagination loop with the `CITATION` source override, then fetch the first
citation page once more and read the `About N results` total (falling back
to the collected count when absent).  `totalText` is the oracle for the
`#gs_ab_md .gs_ab_mdw` text of that extra fetch.  There is no SerpAPI
fallback in this operation: every error propagates, and the flag is
returned unchanged. -/
def getCitations (src : Nat → FetchResult) (totalText : Except ScholarErrorCode String)
    (options : CitationSearchOptions) (useSerpApiFallback : Bool) :
    Except ScholarErrorCode CitationSearchResult × Bool :=
  if jsTrim options.clusterId = "" then (.error .INVALID_INPUT, useSerpApiFallback)
  else
    match collectLoop src (setSource .CITATION) (options.numResults.getD 10) []
        (options.startIndex.getD 0) with
    | .error e => (.error e, useSerpApiFallback)
    | .ok (citations, currentStart) =>
      match totalText with
      | .error e => (.error e, useSerpApiFallback)
      | .ok t =>
        (.ok { originalClusterId := options.clusterId
               totalCitations :=
                 match findAboutResults t.data with
                 | some run => jsParseInt (run.filter (fun c => c ≠ ','))
                 | none => some citations.length
               citations := citations.take (options.numResults.getD 10)
               hasMore := decide (options.numResults.getD 10 ≤ citations.length)
               nextStartIndex := currentStart },
         useSerpApiFallback)

/-- `AdvancedSearchOptions` (the fields the loop reads; the remaining
filter fields only shape the request URL). -/
structure AdvancedSearchOptions where
  query : String
  numResults : Option Nat := none

/-- `advancedSearch` from `scholar.ts`: the same pagination loop starting
at offset 0 with the `ADVANCED_SEARCH` source override and no SerpAPI
fallback: every error propagates and the flag is returned unchanged. -/
def advancedSearch (src : Nat → FetchResult) (options : AdvancedSearchOptions)
    (useSerpApiFallback : Bool) :
    Except ScholarErrorCode PublicationSearchResult × Bool :=
  if jsTrim options.query = "" then (.error .INVALID_INPUT, useSerpApiFallback)
  else
    match collectLoop src (setSource .ADVANCED_SEARCH) (options.numResults.getD 10) [] 0 with
    | .error e => (.error e, useSerpApiFallback)
    | .ok (publications, currentStart) =>
      (.ok { query := options.query
             publications := publications.take (options.numResults.getD 10)
             hasMore := decide (options.numResults.getD 10 ≤ publications.length)
             nextStartIndex := some currentStart },
       useSerpApiFallback)

/-- `getRelatedArticles` from `scholar.ts`: single fetch, `RELATED` source
override, truncated to `numResults`; no fallback, flag unchanged. -/
def getRelatedArticles (page : FetchResult) (clusterId : String) (numResults : Nat)
    (useSerpApiFallback : Bool) : Except ScholarErrorCode (List Publication) × Bool :=
  if jsTrim clusterId = "" then (.error .INVALID_INPUT, useSerpApiFallback)
  else
    match page with
    | .error e => (.error e, useSerpApiFallback)
    | .ok cards =>
      (.ok (((parsePublicationResults cards).map (setSource .RELATED)).take numResults),
       useSerpApiFallback)

/-- The per-record override of `getAllVersions`. -/
def setVersion (clusterId : String) (p : Publication) : Publication :=
  { p with source := some .VERSION, clusterId := some clusterId }

/-- `getAllVersions` from `scholar.ts`: single fetch, `VERSION` source and
cluster-id override, untruncated; no fallback, flag unchanged. -/
def getAllVersions (page : FetchResult) (clusterId : String)
    (useSerpApiFallback : Bool) : Except ScholarErrorCode (List Publication) × Bool :=
  if jsTrim clusterId = "" then (.error .INVALID_INPUT, useSerpApiFallback)
  else
    match page with
    | .error e => (.error e, useSerpApiFallback)
    | .ok cards =>
      (.ok ((parsePublicationResults cards).map (setVersion clusterId)), useSerpApiFallback)

/-! ## Author search and author profile (`scholar.ts`) -/

/-- `s || d` for strings (empty is falsy). -/
def jsOrDefault (s d : String) : String := if s = "" then d else s

/-- `n || undefined` for numbers (0 is falsy). -/
def natOrNone (n : Nat) : Option Nat := if n = 0 then none else some n

/-- Leftmost scan for `user=([^&]+)`, the scholar-id capture. -/
def findUserParam : List Char → Option String
  | [] => none
  | c :: cs =>
    match matchLiteral "user=".data (c :: cs) with
    | some rest =>
      match rest.takeWhile (fun d => d ≠ '&') with
      | [] => findUserParam cs
      | d :: ds => some ⟨d :: ds⟩
    | none => findUserParam cs

/-- `u?.startsWith('http') ? u : undefined`. -/
def httpImageUrl : Option String → Option String
  | some u => if (matchLiteral "http".data u.data).isSome then some u else none
  | none => none

/-- One author-search result card (`.gsc_1usr`). -/
structure AuthorCard where
  nameText : String
  profileHref : Option String := none
  affText : String := ""
  emailText : String := ""
  interestsText : String := ""
  citedByText : String := ""
  photoSrc : Option String := none
deriving DecidableEq, Repr

/-- `AuthorSnippet` from `types/index.ts`. -/
structure AuthorSnippet where
  scholarId : String
  name : String
  affiliation : Option String := none
  emailDomain : Option String := none
  interests : Option (List String) := none
  citationCount : Option Nat := none
  url : Option String := none
  imageUrl : Option String := none
deriving DecidableEq, Repr

/-- Per-card body of `parseAuthorSearchResults`: skipped when the name is
empty.  `citationCount` is `none` both for an absent "cited by" text and
for a digit-free one (`parseInt('')` = `NaN`). -/
def parseAuthorCard (card : AuthorCard) : Option AuthorSnippet :=
  if cleanText card.nameText = "" then none
  else some
    { scholarId := (match card.profileHref with
                    | some p => (findUserParam p.data).getD ""
                    | none => "")
      name := cleanText card.nameText
      affiliation := optStr (cleanText card.affText)
      emailDomain := optStr (cleanText card.emailText)
      interests :=
        (let its := if cleanText card.interestsText = "" then []
                    else (splitOnChar ',' (cleanText card.interestsText).data).map
                      (fun l => (⟨myTrim l⟩ : String))
         if its.length > 0 then some its else none)
      citationCount :=
        (if cleanText card.citedByText = "" then none
         else jsParseInt ((cleanText card.citedByText).data.filter Char.isDigit))
      url := scholarUrl card.profileHref
      imageUrl := httpImageUrl card.photoSrc }

def parseAuthorSearchResults (cards : List AuthorCard) : List AuthorSnippet :=
  cards.filterMap parseAuthorCard

/-- `AuthorSearchOptions`. -/
structure AuthorSearchOptions where
  query : String
  organization : Option String := none
  numResults : Option Nat := none

/-- `AuthorSearchResult`. -/
structure AuthorSearchResult where
  query : String
  totalResults : Nat
  authors : List AuthorSnippet
  hasMore : Bool
deriving DecidableEq, Repr

/-- `searchAuthors` from `scholar.ts`: validate, single fetch, parse; no
SerpAPI fallback — errors propagate and the flag is returned unchanged. -/
def searchAuthors (page : Except ScholarErrorCode (List AuthorCard))
    (options : AuthorSearchOptions) (useSerpApiFallback : Bool) :
    Except ScholarErrorCode AuthorSearchResult × Bool :=
  if jsTrim options.query = "" then (.error .INVALID_INPUT, useSerpApiFallback)
  else
    match page with
    | .error e => (.error e, useSerpApiFallback)
    | .ok cards =>
      (.ok { query := options.query
             totalResults := (parseAuthorSearchResults cards).length
             authors := (parseAuthorSearchResults cards).take (options.numResults.getD 10)
             hasMore := decide (10 ≤ (parseAuthorSearchResults cards).length) },
       useSerpApiFallback)

/-- One publication row of a profile page (`.gsc_a_tr`). -/
structure ProfilePubRow where
  titleText : String
  titleHref : Option String := none
  grayTexts : List String := []
  citeText : String := ""
deriving DecidableEq, Repr

/-- One coauthor row (`.gsc_rsb_a`). -/
structure CoauthorRow where
  linkText : String
  linkHref : Option String := none
  extText : String := ""
deriving DecidableEq, Repr

/-- An author profile page at the level the scraper reads it:
`profileExists` is `$('#gsc_prf_in').length > 0`, `metricCells` the texts
of `#gsc_rsb_st td.gsc_rsb_std` in document order (index 0 citations,
1 citations-5y (unread), 2 h-index, 3 h-index-5y, 4 i10, 5 i10-5y). -/
structure ProfilePage where
  profileExists : Bool
  nameText : String := ""
  affText : String := ""
  emailText : String := ""
  homepageHref : Option String := none
  interestTexts : List String := []
  metricCells : List String := []
  pubRows : List ProfilePubRow := []
  coauthorRows : List CoauthorRow := []
  histYears : List String := []
  histCounts : List String := []
  photoSrc : Option String := none
deriving DecidableEq, Repr

/-- `CoAuthor` from `types/index.ts`. -/
structure CoAuthor where
  scholarId : String
  name : String
  affiliation : Option String := none
deriving DecidableEq, Repr

/-- `CitationsByYear` from `types/index.ts`. -/
structure CitationsByYear where
  year : Nat
  citations : Nat
deriving DecidableEq, Repr

/-- `Author` from `types/index.ts` (fields the profile builder writes). -/
structure Author where
  scholarId : String
  name : String
  affiliation : Option String := none
  emailDomain : Option String := none
  interests : Option (List String) := none
  citationCount : Option Nat := none
  hIndex : Option Nat := none
  hIndex5y : Option Nat := none
  i10Index : Option Nat := none
  i10Index5y : Option Nat := none
  url : String := ""
  imageUrl : Option String := none
  homepage : Option String := none
  publications : List Publication := []
  coauthors : Option (List CoAuthor) := none
  citationsByYear : Option (List CitationsByYear) := none
deriving DecidableEq, Repr

/-- One metrics cell:
`parseInt(cleanText(cells.eq(i).text()).replace(/\D/g, '') || '0', 10)`
(an out-of-range index reads as the empty text). -/
def parseMetricCell (cells : List String) (i : Nat) : Nat :=
  natOfDigits (jsOrDefault ⟨(cleanText (cells.getD i "")).data.filter Char.isDigit⟩ "0").data

/-- The profile-row venue computation:
`venueYear.replace(/\d{4}/, '').replace(/,/g, '').trim()`. -/
def profileVenue (venueYear : String) : String :=
  ⟨myTrim ((removeFourDigits venueYear.data).filter (fun c => c ≠ ','))⟩

/-- Per-row body of the profile publication loop; rows without a title are
skipped.  `citationCount` is `none` for a zero or `NaN` count
(`citations || undefined`). -/
def parseProfilePubRow (row : ProfilePubRow) : Option Publication :=
  if cleanText row.titleText = "" then none
  else some
    { title := cleanText row.titleText
      authors := parseAuthors (cleanText (row.grayTexts.getD 0 ""))
      year := extractYear (cleanText (row.grayTexts.getD 1 ""))
      venue := optStr (profileVenue (cleanText (row.grayTexts.getD 1 "")))
      citationCount :=
        (match jsParseInt (jsOrDefault row.citeText "0").data with
         | some n => natOrNone n
         | none => none)
      url := scholarUrl row.titleHref
      source := some .AUTHOR_PROFILE }

/-- Per-row body of the coauthor loop; kept only when both the name and
the `user=` id capture are present. -/
def parseCoauthorRow (row : CoauthorRow) : Option CoAuthor :=
  match optStr (cleanText row.linkText),
      (match row.linkHref with
       | some u => findUserParam u.data
       | none => none) with
  | some name, some cid =>
    some { scholarId := cid, name := name, affiliation := optStr (cleanText row.extText) }
  | _, _ => none

/-- One citation-graph column: the year label must parse (`!isNaN(year)`);
the bar value `parseInt(cleanText(...) || '0', 10)` is modelled with a
`NaN` bar collapsing to 0 (no claim observes that value). -/
def profileHistEntry (histCounts : List String) (i : Nat) (yt : String) : Option CitationsByYear :=
  match jsParseInt (cleanText yt).data with
  | none => none
  | some y =>
    some { year := y
           citations := (jsParseInt (jsOrDefault (cleanText (histCounts.getD i "")) "0").data).getD 0 }

def profileCitationsByYear (page : ProfilePage) : List CitationsByYear :=
  page.histYears.enum.filterMap (fun p => profileHistEntry page.histCounts p.1 p.2)

/-- `buildAuthorProfileUrl` (query-string assembly, ids taken verbatim). -/
def buildAuthorProfileUrl (scholarId : String) : String :=
  SCHOLAR_BASE_URL ++ "/citations?user=" ++ scholarId ++ "&hl=en"

/-- `getAuthorProfile` from `scholar.ts`: validate the id, fetch the
profile page (oracle `fetched`), `NOT_FOUND` when the profile marker is
absent, else assemble the `Author` record.  The five bibliometric fields
go through `x || undefined`, so a 0 parse is returned as absent.  No
SerpAPI fallback: errors propagate, flag unchanged. -/
def getAuthorProfile (fetched : Except ScholarErrorCode ProfilePage) (scholarId : String)
    (useSerpApiFallback : Bool) : Except ScholarErrorCode Author × Bool :=
  if jsTrim scholarId = "" then (.error .INVALID_INPUT, useSerpApiFallback)
  else
    match fetched with
    | .error e => (.error e, useSerpApiFallback)
    | .ok page =>
      if !page.profileExists then (.error .NOT_FOUND, useSerpApiFallback)
      else
        (.ok { scholarId := scholarId
               name := cleanText page.nameText
               affiliation := optStr (cleanText page.affText)
               emailDomain := optStr (cleanText page.emailText)
               interests :=
                 (let its := (page.interestTexts.map cleanText).filter (fun i => i ≠ "")
                  if its.length > 0 then some its else none)
               citationCount := natOrNone (parseMetricCell page.metricCells 0)
               hIndex := natOrNone (parseMetricCell page.metricCells 2)
               hIndex5y := natOrNone (parseMetricCell page.metricCells 3)
               i10Index := natOrNone (parseMetricCell page.metricCells 4)
               i10Index5y := natOrNone (parseMetricCell page.metricCells 5)
               url := buildAuthorProfileUrl scholarId
               imageUrl := httpImageUrl page.photoSrc
               homepage := strOrNone page.homepageHref
               publications := page.pubRows.filterMap parseProfilePubRow
               coauthors :=
                 (let cs := page.coauthorRows.filterMap parseCoauthorRow
                  if cs.length > 0 then some cs else none)
               citationsByYear :=
                 (let cby := profileCitationsByYear page
                  if cby.length > 0 then some cby else none) },
         useSerpApiFallback)

/-! ## Provider-selector state machine (the `useSerpApiFallback` flag) -/

/-- One operation of `scholar.ts`, packaged with its oracles.  These are
all the exported functions that can run against the module-level flag;
the remaining exports (`generateBibTeX`, the storage module) neither read
nor write it. -/
inductive Op where
  | search (env : SerpApiEnv) (src : Nat → FetchResult) (options : PublicationSearchOptions)
  | authors (page : Except ScholarErrorCode (List AuthorCard)) (options : AuthorSearchOptions)
  | profile (fetched : Except ScholarErrorCode ProfilePage) (scholarId : String)
  | citations (src : Nat → FetchResult) (totalText : Except ScholarErrorCode String)
      (options : CitationSearchOptions)
  | related (page : FetchResult) (clusterId : String) (numResults : Nat)
  | versions (page : FetchResult) (clusterId : String)
  | advanced (src : Nat → FetchResult) (options : AdvancedSearchOptions)

/-- The flag after running one operation from a given flag value. -/
def stepFlag (flag : Bool) : Op → Bool
  | .search env src options => (searchPublications env src options flag).2
  | .authors page options => (searchAuthors page options flag).2
  | .profile fetched scholarId => (getAuthorProfile fetched scholarId flag).2
  | .citations src totalText options => (getCitations src totalText options flag).2
  | .related page clusterId numResults => (getRelatedArticles page clusterId numResults flag).2
  | .versions page clusterId => (getAllVersions page clusterId flag).2
  | .advanced src options => (advancedSearch src options flag).2

/-- No operation ever clears a set flag: every return path of every
operation yields either the incoming flag or `true`. -/
theorem stepFlag_true (op : Op) : stepFlag true op = true := by
  cases op with
  | search env src options =>
    simp only [stepFlag, searchPublications]
    repeat' split
    all_goals rfl
  | authors page options =>
    simp only [stepFlag, searchAuthors]
    repeat' split
    all_goals rfl
  | profile fetched scholarId =>
    simp only [stepFlag, getAuthorProfile]
    repeat' split
    all_goals rfl
  | citations src totalText options =>
    simp only [stepFlag, getCitations]
    repeat' split
    all_goals rfl
  | related page clusterId numResults =>
    simp only [stepFlag, getRelatedArticles]
    repeat' split
    all_goals rfl
  | versions page clusterId =>
    simp only [stepFlag, getAllVersions]
    repeat' split
    all_goals rfl
  | advanced src options =>
    simp only [stepFlag, advancedSearch]
    repeat' split
    all_goals rfl

/-- Number of `false → true` steps in a flag trace. -/
def countUp : List Bool → Nat
  | [] => 0
  | [_] => 0
  | a :: b :: rest => (if a = false ∧ b = true then 1 else 0) + countUp (b :: rest)

/-- Number of `true → false` steps in a flag trace. -/
def countDown : List Bool → Nat
  | [] => 0
  | [_] => 0
  | a :: b :: rest => (if a = true ∧ b = false then 1 else 0) + countDown (b :: rest)

theorem trace_counts (ops : List Op) :
    ∀ b : Bool, countDown (List.scanl stepFlag b ops) = 0 ∧
      countUp (List.scanl stepFlag b ops) ≤ (if b then 0 else 1) := by
  induction ops with
  | nil =>
    intro b
    cases b <;> simp [List.scanl_nil, countDown, countUp]
  | cons op rest ih =>
    intro b
    rw [List.scanl_cons]
    obtain ⟨t, ht⟩ : ∃ t, List.scanl stepFlag (stepFlag b op) rest = stepFlag b op :: t := by
      cases rest <;> simp [List.scanl]
    have hrec := ih (stepFlag b op)
    rw [ht] at hrec ⊢
    cases b with
    | true =>
      rw [stepFlag_true op] at hrec ⊢
      simp only [countDown, countUp, if_pos, if_neg] at hrec ⊢
      constructor
      · simpa using hrec.1
      · simpa using hrec.2
    | false =>
      cases hs : stepFlag false op with
      | true =>
        rw [hs] at hrec
        simp only [countDown, countUp] at hrec ⊢
        constructor
        · simpa using hrec.1
        · have h2 : countUp (true :: t) ≤ 0 := by simpa using hrec.2
          simp
          omega
      | false =>
        rw [hs] at hrec
        simp only [countDown, countUp] at hrec ⊢
        constructor
        · simpa using hrec.1
        · have h2 : countUp (false :: t) ≤ 1 := by simpa using hrec.2
          simp
          omega

/-- C3: the provider-selection flag starts at primary (`false`), is never
cleared by any operation (no alternate→primary transition within a process
lifetime), and over any sequence of operations it rises false→true at most
once. -/
theorem C3_sticky_one_way_failover :
    initialFallbackFlag = false ∧
    (∀ op : Op, stepFlag true op = true) ∧
    (∀ ops : List Op,
      countDown (List.scanl stepFlag initialFallbackFlag ops) = 0 ∧
      countUp (List.scanl stepFlag initialFallbackFlag ops) ≤ 1) := by
  refine ⟨rfl, stepFlag_true, ?_⟩
  intro ops
  have h := trace_counts ops false
  simpa [initialFallbackFlag] using h

/-! ## Pagination-loop specification -/

theorem collectLoopGo_spec (src : Nat → FetchResult) (transform : Publication → Publication)
    (numResults : Nat) :
    ∀ (fuel : Nat) (acc : List Publication) (start : Nat) (recs : List Publication) (fin : Nat),
      numResults - acc.length ≤ fuel →
      collectLoopGo src transform numResults fuel acc start = .ok (recs, fin) →
      (∃ k, fin = start + resultsPerPage * k) ∧
      (numResults ≤ recs.length ∨
        ∃ cards, src fin = .ok cards ∧ (parsePublicationResults cards).map transform = []) := by
  intro fuel
  induction fuel with
  | zero =>
    intro acc start recs fin hinv h
    simp only [collectLoopGo, Except.ok.injEq, Prod.mk.injEq] at h
    obtain ⟨rfl, rfl⟩ := h
    exact ⟨⟨0, by omega⟩, Or.inl (by omega)⟩
  | succ f ih =>
    intro acc start recs fin hinv h
    simp only [collectLoopGo] at h
    by_cases hlen : acc.length < numResults
    · rw [if_pos hlen] at h
      cases hsrc : src start with
      | error e => simp [hsrc] at h
      | ok cards =>
        simp only [hsrc] at h
        cases hres : (parsePublicationResults cards).map transform with
        | nil =>
          simp only [hres, Except.ok.injEq, Prod.mk.injEq] at h
          obtain ⟨rfl, rfl⟩ := h
          exact ⟨⟨0, by omega⟩, Or.inr ⟨cards, hsrc, hres⟩⟩
        | cons r rs =>
          simp only [hres] at h
          have hinv' : numResults - (acc ++ r :: rs).length ≤ f := by
            simp only [List.length_append, List.length_cons]
            omega
          obtain ⟨⟨k, hk⟩, hstop⟩ := ih (acc ++ r :: rs) (start + resultsPerPage) recs fin hinv' h
          exact ⟨⟨k + 1, by rw [hk]; ring⟩, hstop⟩
    · rw [if_neg hlen] at h
      simp only [Except.ok.injEq, Prod.mk.injEq] at h
      obtain ⟨rfl, rfl⟩ := h
      exact ⟨⟨0, by omega⟩, Or.inl (by omega)⟩

/-- C4: for every run of the pagination loop that completes without a
thrown error, the operation returns at most `numResults` records (the
final `slice(0, numResults)`), the page offset advanced from the start
offset in steps of the fixed page size 10 (one step per appended page),
and the loop stopped exactly because either the accumulated record count
reached `numResults` or the page fetched at the final offset yielded zero
records. -/
theorem C4_pagination_loop (src : Nat → FetchResult) (transform : Publication → Publication)
    (numResults startIndex : Nat) (recs : List Publication) (fin : Nat)
    (h : collectLoop src transform numResults [] startIndex = .ok (recs, fin)) :
    (recs.take numResults).length ≤ numResults ∧
    (∃ k, fin = startIndex + 10 * k) ∧
    (numResults ≤ recs.length ∨
      ∃ cards, src fin = .ok cards ∧ (parsePublicationResults cards).map transform = []) := by
  unfold collectLoop at h
  have hs := collectLoopGo_spec src transform numResults (numResults - ([] : List Publication).length)
    [] startIndex recs fin (by simp) h
  refine ⟨List.length_take_le _ _, ?_, hs.2⟩
  obtain ⟨k, hk⟩ := hs.1
  exact ⟨k, by simpa [resultsPerPage] using hk⟩

/-- A two-record page at offset 0, exhausted afterwards. -/
def twoPageSrc : Nat → FetchResult := fun start =>
  if start = 0 then .ok [sampleCard "Q1", sampleCard "Q2"] else .ok []

/-- Witness for C4 at a concrete source: two records on the first page,
exhaustion on the second. -/
theorem C4_pagination_loop_witness :
    ((((collectLoop twoPageSrc id 10 [] 0).toOption.getD ([], 0)).1.take 10).length ≤ 10) ∧
    (∃ k, ((collectLoop twoPageSrc id 10 [] 0).toOption.getD ([], 0)).2 = 0 + 10 * k) ∧
    (10 ≤ ((collectLoop twoPageSrc id 10 [] 0).toOption.getD ([], 0)).1.length ∨
      ∃ cards, twoPageSrc ((collectLoop twoPageSrc id 10 [] 0).toOption.getD ([], 0)).2
          = .ok cards ∧
        (parsePublicationResults cards).map id = []) :=
  C4_pagination_loop twoPageSrc id 10 0
    ((collectLoop twoPageSrc id 10 [] 0).toOption.getD ([], 0)).1
    ((collectLoop twoPageSrc id 10 [] 0).toOption.getD ([], 0)).2 (by rfl)

/-! ## The spec's worked search example (C5) -/

/-- First result page: ten well-formed cards. -/
def c5Page0 : List Card :=
  [sampleCard "T1", sampleCard "T2", sampleCard "T3", sampleCard "T4", sampleCard "T5",
   sampleCard "T6", sampleCard "T7", sampleCard "T8", sampleCard "T9", sampleCard "T10"]

/-- Second result page: ten cards whose 4th and 5th (the 14th and 15th
overall) are malformed. -/
def c5Page1 : List Card :=
  [sampleCard "T11", sampleCard "T12", sampleCard "T13", malformedCard, malformedCard,
   sampleCard "T16", sampleCard "T17", sampleCard "T18", sampleCard "T19", sampleCard "T20"]

/-- The primary source of the example: two 10-item pages, then exhaustion
(zero cards for every later offset). -/
def c5Src : Nat → FetchResult := fun start =>
  if start = 0 then .ok c5Page0 else if start = 10 then .ok c5Page1 else .ok []

/-- SerpAPI unconfigured (irrelevant to this run, which never fails). -/
def c5Env : SerpApiEnv :=
  { serpApiKey := none, useSerpApiFallbackCfg := false, searchResult := .error .NETWORK_ERROR }

def c5Options : PublicationSearchOptions :=
  { query := "transformer neural network", numResults := some 10 }

/-- C5 counterexample: in the spec's worked example the claim asserts
`hasMore = false`; the code returns `hasMore = true` — the loop stops as
soon as the first full page reaches the 10 requested records, never
fetches the second page or observes exhaustion, and `hasMore` is
`publications.length >= numResults`. -/
theorem C5_counterexample_hasMore_true :
    ((searchPublications c5Env c5Src c5Options initialFallbackFlag).1.toOption.map
      (fun res => res.hasMore)) = some true := by decide

/-- C5 (amended): the example search returns exactly 10 valid records,
each with a non-empty title, with `hasMore = true` (the loop satisfied the
requested count from the first page and reports that more results are
potentially available; it never reaches the malformed 14th-15th cards or
the exhausted page). -/
theorem C5_example_search_outcome :
    ((searchPublications c5Env c5Src c5Options initialFallbackFlag).1.toOption.map
      (fun res => (res.publications.length,
                   res.publications.all (fun p => !(p.title == "")),
                   res.hasMore)))
      = some (10, true, true) := by decide

/-! ## Failover scope (C1) and absence of result caching (C2) -/

/-- SerpAPI configured and enabled, with a successful adapter outcome. -/
def c1Env : SerpApiEnv :=
  { serpApiKey := some "serpapi-key-123"
    useSerpApiFallbackCfg := true
    searchResult := .ok { query := "q", publications := [], hasMore := false } }

/-- C1 counterexample: with the alternate provider configured and enabled,
a `getCitations` whose first page fetch fails with `RATE_LIMITED`
propagates that failure to the caller unchanged and leaves the provider
flag at primary — the claimed transparent failover does not happen for
this operation. -/
theorem C1_counterexample_getCitations_no_failover :
    isSerpApiAvailable c1Env = true ∧
    getCitations (fun _ => .error .RATE_LIMITED) (.ok "") { clusterId := "12345" }
        initialFallbackFlag
      = (.error ScholarErrorCode.RATE_LIMITED, false) := by decide

/-- C1 (amended): the transparent failover applies to `searchPublications`
only.  When its pagination loop fails with `BLOCKED` or `RATE_LIMITED` and
the alternate provider is configured and enabled, the sticky flag is set
and the SerpAPI outcome is returned (the caller never sees the primary's
failure); when the alternate is not available the primary's error
propagates unchanged.  Every other operation — `getCitations`,
`searchAuthors`, `getAuthorProfile`, `advancedSearch`,
`getRelatedArticles`, `getAllVersions` — never fails over: the same
failures propagate to the caller unchanged with the flag untouched even
when the alternate is configured and enabled. -/
theorem C1_fallback_scope (env : SerpApiEnv) (src : Nat → FetchResult)
    (options : PublicationSearchOptions) (e : ScholarErrorCode)
    (hq : jsTrim options.query ≠ "")
    (hl : collectLoop src id (options.numResults.getD 10) [] (options.startIndex.getD 0)
      = .error e)
    (he : e = .BLOCKED ∨ e = .RATE_LIMITED) :
    (isSerpApiAvailable env = true →
      searchPublications env src options initialFallbackFlag = (env.searchResult, true)) ∧
    (isSerpApiAvailable env = false →
      searchPublications env src options initialFallbackFlag = (.error e, initialFallbackFlag)) ∧
    (∀ (copts : CitationSearchOptions) (totalText : Except ScholarErrorCode String) (flag : Bool),
      jsTrim copts.clusterId ≠ "" →
      collectLoop src (setSource .CITATION) (copts.numResults.getD 10) []
          (copts.startIndex.getD 0) = .error e →
      getCitations src totalText copts flag = (.error e, flag)) ∧
    (∀ (apage : Except ScholarErrorCode (List AuthorCard)) (aopts : AuthorSearchOptions)
        (flag : Bool),
      jsTrim aopts.query ≠ "" → apage = .error e →
      searchAuthors apage aopts flag = (.error e, flag)) ∧
    (∀ (pfetched : Except ScholarErrorCode ProfilePage) (sid : String) (flag : Bool),
      jsTrim sid ≠ "" → pfetched = .error e →
      getAuthorProfile pfetched sid flag = (.error e, flag)) ∧
    (∀ (aopts : AdvancedSearchOptions) (flag : Bool),
      jsTrim aopts.query ≠ "" →
      collectLoop src (setSource .ADVANCED_SEARCH) (aopts.numResults.getD 10) [] 0 = .error e →
      advancedSearch src aopts flag = (.error e, flag)) ∧
    (∀ (rpage : FetchResult) (cid : String) (n : Nat) (flag : Bool),
      jsTrim cid ≠ "" → rpage = .error e →
      getRelatedArticles rpage cid n flag = (.error e, flag)) ∧
    (∀ (vpage : FetchResult) (cid : String) (flag : Bool),
      jsTrim cid ≠ "" → vpage = .error e →
      getAllVersions vpage cid flag = (.error e, flag)) := by
  refine ⟨?_, ?_, ?_, ?_, ?_, ?_, ?_, ?_⟩
  · intro hav
    unfold searchPublications
    rw [if_neg (by simp [initialFallbackFlag]), if_neg hq]
    simp only [hl]
    rw [if_pos (by rcases he with rfl | rfl <;> simp [hav])]
  · intro hav
    unfold searchPublications
    rw [if_neg (by simp [initialFallbackFlag]), if_neg hq]
    simp only [hl]
    rw [if_neg (by simp [hav])]
  · intro copts totalText flag hcq hcl
    unfold getCitations
    rw [if_neg hcq]
    simp only [hcl]
  · intro apage aopts flag haq hap
    unfold searchAuthors
    rw [if_neg haq]
    simp only [hap]
  · intro pfetched sid flag hpq hpf
    unfold getAuthorProfile
    rw [if_neg hpq]
    simp only [hpf]
  · intro aopts flag haq hal
    unfold advancedSearch
    rw [if_neg haq]
    simp only [hal]
  · intro rpage cid n flag hrq hrp
    unfold getRelatedArticles
    rw [if_neg hrq]
    simp only [hrp]
  · intro vpage cid flag hvq hvp
    unfold getAllVersions
    rw [if_neg hvq]
    simp only [hvp]

/-- A source that always rate-limits. -/
def rateLimitedSrc : Nat → FetchResult := fun _ => .error .RATE_LIMITED

/-- Witness for C1: a rate-limited search fails over when SerpAPI is
available, while a rate-limited citation lookup, author search, author
profile, advanced search, related-articles and all-versions lookup all
propagate the error with the flag untouched. -/
theorem C1_fallback_scope_witness :
    searchPublications c1Env rateLimitedSrc { query := "q1" } initialFallbackFlag
      = (c1Env.searchResult, true) ∧
    getCitations rateLimitedSrc (.ok "") { clusterId := "99" } false
      = (.error ScholarErrorCode.RATE_LIMITED, false) ∧
    searchAuthors (.error .RATE_LIMITED) { query := "ada" } false
      = (.error ScholarErrorCode.RATE_LIMITED, false) ∧
    getAuthorProfile (.error .RATE_LIMITED) "JicYPdAAAAAJ" false
      = (.error ScholarErrorCode.RATE_LIMITED, false) ∧
    advancedSearch rateLimitedSrc { query := "q2" } false
      = (.error ScholarErrorCode.RATE_LIMITED, false) ∧
    getRelatedArticles (.error .RATE_LIMITED) "77" 10 false
      = (.error ScholarErrorCode.RATE_LIMITED, false) ∧
    getAllVersions (.error .RATE_LIMITED) "88" false
      = (.error ScholarErrorCode.RATE_LIMITED, false) :=
  ⟨(C1_fallback_scope c1Env rateLimitedSrc { query := "q1" } .RATE_LIMITED (by decide) (by rfl)
      (Or.inr rfl)).1 (by decide),
   (C1_fallback_scope c1Env rateLimitedSrc { query := "q1" } .RATE_LIMITED (by decide) (by rfl)
      (Or.inr rfl)).2.2.1 { clusterId := "99" } (.ok "") false (by decide) (by rfl),
   (C1_fallback_scope c1Env rateLimitedSrc { query := "q1" } .RATE_LIMITED (by decide) (by rfl)
      (Or.inr rfl)).2.2.2.1 (.error .RATE_LIMITED) { query := "ada" } false (by decide) rfl,
   (C1_fallback_scope c1Env rateLimitedSrc { query := "q1" } .RATE_LIMITED (by decide) (by rfl)
      (Or.inr rfl)).2.2.2.2.1 (.error .RATE_LIMITED) "JicYPdAAAAAJ" false (by decide) rfl,
   (C1_fallback_scope c1Env rateLimitedSrc { query := "q1" } .RATE_LIMITED (by decide) (by rfl)
      (Or.inr rfl)).2.2.2.2.2.1 { query := "q2" } false (by decide) (by rfl),
   (C1_fallback_scope c1Env rateLimitedSrc { query := "q1" } .RATE_LIMITED (by decide) (by rfl)
      (Or.inr rfl)).2.2.2.2.2.2.1 (.error .RATE_LIMITED) "77" 10 false (by decide) rfl,
   (C1_fallback_scope c1Env rateLimitedSrc { query := "q1" } .RATE_LIMITED (by decide) (by rfl)
      (Or.inr rfl)).2.2.2.2.2.2.2 (.error .RATE_LIMITED) "88" false (by decide) rfl⟩

/-- The network requests issued by one `searchPublications` call: the page
offsets the pagination loop fetches (empty when the call is answered by
the sticky SerpAPI path or rejected by validation).  `scholar.ts` contains
no read of any cache before fetching and no write after completing. -/
def searchPublicationsOffsets (env : SerpApiEnv) (src : Nat → FetchResult)
    (options : PublicationSearchOptions) (useSerpApiFallback : Bool) : List Nat :=
  if useSerpApiFallback && isSerpApiAvailable env then []
  else if jsTrim options.query = "" then []
  else collectOffsets src id (options.numResults.getD 10) [] (options.startIndex.getD 0)

/-- C2 (code behaviour at the failing input): the first
`search_publications` invocation fetches page offset 0 from the network
and completes; a second, identical invocation in the process state the
first one left behind fetches page offset 0 from the network again —
nothing is served from the Result Cache, whose `cache` singleton is never
invoked by any operation. -/
theorem C2_repeat_search_hits_network :
    searchPublicationsOffsets c5Env c5Src c5Options initialFallbackFlag = [0] ∧
    (searchPublications c5Env c5Src c5Options initialFallbackFlag).1.isOk = true ∧
    searchPublicationsOffsets c5Env c5Src c5Options
        (searchPublications c5Env c5Src c5Options initialFallbackFlag).2 = [0] := by decide

/-! ## Bibliometric zero-collapse (C10) -/

theorem natOrNone_ne_some_zero (n : Nat) : natOrNone n ≠ some 0 := by
  unfold natOrNone
  split
  · simp
  · rename_i h
    simp
    omega

/-- C10: the `Author` returned by `getAuthorProfile` never carries a
bibliometric field equal to 0: each of the five metric fields goes through
`value || undefined`, so whenever the corresponding metrics cell parses to
0 (which includes a missing cell, via `'' || '0'`), the field is absent
rather than 0. -/
theorem C10_profile_metrics_zero_absent (page : ProfilePage) (scholarId : String)
    (flag flag2 : Bool) (author : Author)
    (h : getAuthorProfile (.ok page) scholarId flag = (.ok author, flag2)) :
    (author.citationCount ≠ some 0 ∧
      (parseMetricCell page.metricCells 0 = 0 → author.citationCount = none)) ∧
    (author.hIndex ≠ some 0 ∧
      (parseMetricCell page.metricCells 2 = 0 → author.hIndex = none)) ∧
    (author.hIndex5y ≠ some 0 ∧
      (parseMetricCell page.metricCells 3 = 0 → author.hIndex5y = none)) ∧
    (author.i10Index ≠ some 0 ∧
      (parseMetricCell page.metricCells 4 = 0 → author.i10Index = none)) ∧
    (author.i10Index5y ≠ some 0 ∧
      (parseMetricCell page.metricCells 5 = 0 → author.i10Index5y = none)) := by
  unfold getAuthorProfile at h
  by_cases hid : jsTrim scholarId = ""
  · rw [if_pos hid] at h
    simp at h
  · rw [if_neg hid] at h
    by_cases hex : (!page.profileExists) = true
    · simp only [hex, if_pos] at h
      simp at h
    · simp only [hex, Bool.false_eq_true, if_false, if_neg] at h
      simp only [Prod.mk.injEq, Except.ok.injEq] at h
      obtain ⟨hrec, -⟩ := h
      rw [← hrec]
      refine ⟨⟨natOrNone_ne_some_zero _, fun hz => ?_⟩, ⟨natOrNone_ne_some_zero _, fun hz => ?_⟩,
        ⟨natOrNone_ne_some_zero _, fun hz => ?_⟩, ⟨natOrNone_ne_some_zero _, fun hz => ?_⟩,
        ⟨natOrNone_ne_some_zero _, fun hz => ?_⟩⟩ <;>
        simp [natOrNone, hz]

/-- A profile page whose h-index and 5-year i10-index cells read 0. -/
def c10Page : ProfilePage :=
  { profileExists := true
    nameText := "Ada Lovelace"
    metricCells := ["1,234", "600", "0", "5", "10", "0"] }

def c10Author : Author :=
  (getAuthorProfile (.ok c10Page) "JicYPdAAAAAJ" false).1.toOption.getD
    { scholarId := "", name := "" }

/-- Witness for C10 at a concrete profile page: the citation count 1234 is
carried, the zero h-index cell yields an absent field. -/
theorem C10_profile_metrics_zero_absent_witness :
    c10Author.citationCount ≠ some 0 ∧ c10Author.hIndex = none :=
  ⟨(C10_profile_metrics_zero_absent c10Page "JicYPdAAAAAJ" false false c10Author
      (by decide)).1.1,
   (C10_profile_metrics_zero_absent c10Page "JicYPdAAAAAJ" false false c10Author
      (by decide)).2.1.2 (by decide)⟩
